import Mathlib

/-!
Verification of the QuickDL video-downloader backend (src/app.py).

The development shallowly embeds the request-handling surface of the Flask
application: the pure helpers FormatDuration, OptionBuilder and
FormatSelector, and the two HTTP handlers for /api/info and /api/download.
External collaborators (the yt-dlp extractor, the filesystem, file
streaming) are passed to the handlers as explicit function parameters, so
each handler is a pure function of its request and of the behaviour of its
collaborators.
-/

namespace QuickDL

/-- A Python value as it flows through this program: the absent value
(None), an integer, a float, or a string. Used for fields whose runtime
type is checked dynamically, such as the duration metadata field. A float
is modelled by the exact rational value it holds (every Python float is a
dyadic rational), with its arithmetic taken exactly. -/
inductive PyVal
  | vnone
  | int (n : Int)
  | float (q : ℚ)
  | str (s : String)
deriving DecidableEq

/-- Python str() rendering of a PyVal: str(None) is the text None,
integers render in decimal, strings render as themselves. The program
never applies str() to a float (format_duration sends every numeric value
down its arithmetic branch), so the rendering of a float value is nominal
and given as the rendering of its rational value. -/
def pyStr : PyVal → String
  | PyVal.vnone => "None"
  | PyVal.int n => toString n
  | PyVal.float q => toString q
  | PyVal.str s => s

/-- Whether a PyVal is numeric, modelling isinstance(x, (int, float)). -/
def isNumeric : PyVal → Bool
  | PyVal.int _ => true
  | PyVal.float _ => true
  | _ => false

/-- Python int() conversion of a float value: truncation toward zero.
Integer division on Int truncates toward zero when applied to the reduced
numerator and denominator. -/
def pyTrunc (q : ℚ) : Int := Int.tdiv q.num (q.den : Int)

/-- Python floor division x // y on float values, taken exactly: the
floor of the true quotient, as a float value. -/
def pyFloorDiv (x y : ℚ) : ℚ := ((Int.floor (x / y) : Int) : ℚ)

/-- Python modulo x % y on float values, taken exactly: the remainder
x - y * (x // y), which for a positive y lies in [0, y). -/
def pyMod (x y : ℚ) : ℚ := x - y * pyFloorDiv x y

/-- Python string formatting with the 02d format spec: the decimal
rendering left-padded with the digit 0 to a minimum width of two. -/
def fmt02 (n : Int) : String :=
  let s := toString n
  if s.length < 2 then "0" ++ s else s

-- === Constants from src/app.py ===

def DOWNLOAD_DIR : String := "downloads"

def DEFAULT_QUALITY : String := "1080p"

def HTTP_OK : Nat := 200

def HTTP_BAD_REQUEST : Nat := 400

def HTTP_INTERNAL_SERVER_ERROR : Nat := 500

def ERR_URL_REQUIRED : String := "URL is required"

def ERR_FETCH_INFO : String := "Could not fetch video info. Please check the URL."

def ERR_FILE_NOT_FOUND : String := "File not found after download"

/-- format_duration from src/app.py lines 34-49: non-numeric inputs are
rendered with str(); numeric inputs are rendered as int(x // 60), a
colon, and int(x % 60) zero-padded to two digits. Python floor division
and modulo on integers are Int.fdiv and Int.fmod (int() is then the
identity); on floats they are pyFloorDiv and pyMod with int() modelled by
pyTrunc. -/
def format_duration : PyVal → String
  | PyVal.int d => toString (Int.fdiv d 60) ++ ":" ++ fmt02 (Int.fmod d 60)
  | PyVal.float q =>
    toString (pyTrunc (pyFloorDiv q 60)) ++ ":" ++ fmt02 (pyTrunc (pyMod q 60))
  | v => pyStr v

/-- The yt-dlp options dictionary, as the closed record of the option keys
this program ever sets. A field of value Option.none models the key being
absent from the dictionary; for outtmpl the inner Option models the Python
value None being stored under the key. -/
structure YdlOpts where
  quiet : Bool
  no_warnings : Bool
  format : Option String
  outtmpl : Option (Option String)
  merge_output_format : Option String
deriving DecidableEq

/-- get_ydl_opts from src/app.py lines 52-76: base options set quiet and
no_warnings; in download mode the update overwrites quiet to false and adds
the default format, the output template and the merge container. -/
def get_ydl_opts (download : Bool) (output_template : Option String) : YdlOpts :=
  let opts : YdlOpts :=
    { quiet := true, no_warnings := true,
      format := Option.none, outtmpl := Option.none,
      merge_output_format := Option.none }
  if download then
    { opts with
      quiet := false,
      format := Option.some "bestvideo[height<=1080]+bestaudio/best[height<=1080]",
      outtmpl := Option.some output_template,
      merge_output_format := Option.some "mp4" }
  else opts

/-- Removal of every occurrence of a character from a string, modelling
the Python expression s.replace(c, <empty string>). -/
def replaceAll (s : String) (c : Char) : String :=
  String.mk (s.data.filter (fun a => a ≠ c))

/-- get_quality_format_string from src/app.py lines 79-92: drop every
letter p from the label and test membership in the four known heights. -/
def get_quality_format_string (quality : String) : String :=
  let height := replaceAll quality 'p'
  if height = "1080" ∨ height = "720" ∨ height = "480" ∨ height = "360" then
    "bestvideo[height<=" ++ height ++ "]+bestaudio/best[height<=" ++ height ++ "]"
  else
    "best"

-- === Filesystem path helpers (os.path) ===

/-- Index of the last occurrence of a character in a character list, if
any, modelling str.rfind restricted to a successful search. -/
def rlast (c : Char) : List Char → Option Nat
  | [] => Option.none
  | a :: rest =>
    match rlast c rest with
    | Option.some i => Option.some (i + 1)
    | Option.none => if a = c then Option.some 0 else Option.none

/-- str.rfind: index of the last occurrence, or -1 when absent. -/
def rfind (s : String) (c : Char) : Int :=
  match rlast c s.data with
  | Option.some i => (i : Int)
  | Option.none => -1

/-- os.path.splitext for posix paths: split at the last dot that lies
after the last slash, unless every character between the start of the
final path component and that dot is itself a dot (hidden files such as
.bashrc keep their name whole). -/
def splitext (p : String) : String × String :=
  let sepIdx := rfind p '/'
  let dotIdx := rfind p '.'
  if sepIdx < dotIdx then
    let nameStart := (sepIdx + 1).toNat
    let dotN := dotIdx.toNat
    if ((p.data.drop nameStart).take (dotN - nameStart)).any (fun a => a ≠ '.') then
      (String.mk (p.data.take dotN), String.mk (p.data.drop dotN))
    else (p, "")
  else (p, "")

/-- os.path.join for two posix path segments. -/
def path_join (a b : String) : String :=
  if b.startsWith "/" then b
  else if a = "" || a.endsWith "/" then a ++ b
  else a ++ "/" ++ b

-- === HTTP layer ===

/-- An HTTP request body or query string: an association list of fields.
Only the url and quality fields are ever read by the handlers; any other
field is simply carried along. -/
def Fields : Type := List (String × String)

/-- dict.get(k) and request.args.get(k): the value of the first binding of
the key, or absent. -/
def dictGet (k : String) (d : Fields) : Option String :=
  (d.find? (fun p => p.1 = k)).map (fun p => p.2)

/-- Python truthiness test `not url` on an optional string: true when the
value is absent (None) or the empty string. -/
def falsy : Option String → Bool
  | Option.none => true
  | Option.some s => s == ""

/-- A response body: a JSON object with string fields, or a streamed file
attachment produced by send_file. -/
inductive RespBody
  | json (fields : List (String × String))
  | file (path : String)
deriving DecidableEq

/-- An HTTP response: status code and body. -/
structure HttpResponse where
  status : Nat
  body : RespBody
deriving DecidableEq

/-- The metadata dictionary returned by extract_info in info mode. A field
of value Option.none models the key being absent; duration is kept as a
dynamic PyVal because format_duration inspects its runtime type. -/
structure InfoDict where
  title : Option String
  thumbnail : Option String
  duration : PyVal
  uploader : Option String
  webpage_url : Option String

/-- get_video_info from src/app.py lines 101-131, the POST /api/info
handler. The extractor is a parameter: it is given the url and the built
options and either fails with a message or returns the metadata. -/
def get_video_info (body : Fields)
    (extract : String → YdlOpts → Except String InfoDict) : HttpResponse :=
  let url := dictGet "url" body
  if falsy url then
    ⟨HTTP_BAD_REQUEST, RespBody.json [("error", ERR_URL_REQUIRED)]⟩
  else
    let u := url.getD ""
    match extract u (get_ydl_opts false Option.none) with
    | Except.error _ =>
      ⟨HTTP_BAD_REQUEST, RespBody.json [("error", ERR_FETCH_INFO)]⟩
    | Except.ok info =>
      ⟨HTTP_OK, RespBody.json [
        ("title", info.title.getD "Unknown Title"),
        ("thumbnail", info.thumbnail.getD ""),
        ("duration", format_duration info.duration),
        ("author", info.uploader.getD "Unknown Author"),
        ("webpage_url", info.webpage_url.getD u)]⟩

/-- One entry of the requested_downloads list of a download result. -/
structure DlEntry where
  filepath : String

/-- The result dictionary returned by extract_info in download mode:
requested_downloads when that key is present, and the rest of the metadata
abstracted behind the prepare_filename collaborator. -/
structure DlInfo where
  requested_downloads : Option (List DlEntry)

/-- The output template built at src/app.py line 152:
downloads/%(title)s_<timestamp>.%(ext)s. -/
def output_template (timestamp : Nat) : String :=
  path_join DOWNLOAD_DIR ("%(title)s_" ++ toString timestamp ++ ".%(ext)s")

/-- The options the download handler passes to the extractor, src/app.py
lines 155-156: download-mode options whose format key is then overwritten
with the selector result for the requested quality. -/
def dl_opts (timestamp : Nat) (quality : String) : YdlOpts :=
  { get_ydl_opts true (Option.some (output_template timestamp)) with
    format := Option.some (get_quality_format_string quality) }

/-- The file-path resolution of src/app.py lines 162-170: when the result
has a requested_downloads key, take the filepath of entry zero (an empty
list raises IndexError, which the surrounding handler catches); otherwise
prepare_filename derives the name from the template and a non-mp4
extension is rewritten to .mp4. -/
def resolve_filename (prepare : DlInfo → String) (info : DlInfo) :
    Except String String :=
  match info.requested_downloads with
  | Option.some entries =>
    match entries with
    | [] => Except.error "list index out of range"
    | e :: _ => Except.ok e.filepath
  | Option.none =>
    let filename := prepare info
    let base := (splitext filename).1
    let ext := (splitext filename).2
    if ext ≠ ".mp4" then Except.ok (base ++ ".mp4") else Except.ok filename

/-- download_video from src/app.py lines 134-182, the GET /api/download
handler. The extractor, prepare_filename, os.path.exists and send_file are
parameters; sendErr gives the message of the exception send_file raises,
or Option.none when streaming succeeds. -/
def download_video (args : Fields) (timestamp : Nat)
    (extract : String → YdlOpts → Except String DlInfo)
    (prepare : DlInfo → String)
    (pathExists : String → Bool)
    (sendErr : String → Option String) : HttpResponse :=
  let url := dictGet "url" args
  let quality := (dictGet "quality" args).getD DEFAULT_QUALITY
  if falsy url then
    ⟨HTTP_BAD_REQUEST, RespBody.json [("error", ERR_URL_REQUIRED)]⟩
  else
    let u := url.getD ""
    match extract u (dl_opts timestamp quality) with
    | Except.error e =>
      ⟨HTTP_INTERNAL_SERVER_ERROR, RespBody.json [("error", e)]⟩
    | Except.ok info =>
      match resolve_filename prepare info with
      | Except.error e =>
        ⟨HTTP_INTERNAL_SERVER_ERROR, RespBody.json [("error", e)]⟩
      | Except.ok filename =>
        if filename ≠ "" && pathExists filename then
          match sendErr filename with
          | Option.none => ⟨HTTP_OK, RespBody.file filename⟩
          | Option.some fe =>
            ⟨HTTP_INTERNAL_SERVER_ERROR, RespBody.json [("error", fe)]⟩
        else
          ⟨HTTP_INTERNAL_SERVER_ERROR, RespBody.json [("error", ERR_FILE_NOT_FOUND)]⟩

-- === Theorems ===

/-- Claim C1, counterexample: the label 1080 without any p suffix is not
one of the four listed labels, yet the Format Selector returns the
height-capped expression for it rather than the literal best, because the
normalization removes every p character instead of stripping only a
trailing p suffix. -/
theorem C1_counterexample :
    get_quality_format_string "1080" =
      "bestvideo[height<=1080]+bestaudio/best[height<=1080]" ∧
    get_quality_format_string "1080" ≠ "best" := by
  constructor
  · rfl
  · decide

/-- Claim C1, amended: each of the four labels 1080p, 720p, 480p and 360p
yields the height-capped expression with its corresponding height; every
label whose form after removing all occurrences of the character p is not
one of 1080, 720, 480 or 360 (including the empty string, 4k and the
mismatched-case 1080P) yields the literal best; the normalization removes
every occurrence of the character p, not only a trailing suffix. -/
theorem C1_format_selector (q : String)
    (h : replaceAll q 'p' ∉ ["1080", "720", "480", "360"]) :
    get_quality_format_string q = "best" ∧
    get_quality_format_string "1080p" =
      "bestvideo[height<=1080]+bestaudio/best[height<=1080]" ∧
    get_quality_format_string "720p" =
      "bestvideo[height<=720]+bestaudio/best[height<=720]" ∧
    get_quality_format_string "480p" =
      "bestvideo[height<=480]+bestaudio/best[height<=480]" ∧
    get_quality_format_string "360p" =
      "bestvideo[height<=360]+bestaudio/best[height<=360]" ∧
    get_quality_format_string "" = "best" ∧
    get_quality_format_string "4k" = "best" ∧
    get_quality_format_string "1080P" = "best" := by
  refine ⟨?_, rfl, rfl, rfl, rfl, rfl, rfl, rfl⟩
  simp only [List.mem_cons, List.not_mem_nil, or_false, not_or] at h
  simp only [get_quality_format_string]
  rw [if_neg]
  push_neg
  exact ⟨h.1, h.2.1, h.2.2.1, h.2.2.2⟩

/-- Claim C1, witness for the amended theorem at the label 4k. -/
theorem C1_format_selector_witness :
    get_quality_format_string "4k" = "best" :=
  (C1_format_selector "4k" (by decide)).1

/-- Conversion of an integer-valued float by int(): the truncation of an
integer cast is that integer. -/
theorem pyTrunc_intCast (k : ℤ) : pyTrunc ((k : ℚ)) = k := by
  simp [pyTrunc, Rat.num_intCast, Rat.den_intCast, Int.tdiv_one]

/-- On a non-negative value, truncation toward zero agrees with the
floor. -/
theorem pyTrunc_of_nonneg (r : ℚ) (hr : 0 ≤ r) : pyTrunc r = Int.floor r := by
  rw [Rat.floor_def]
  exact Int.tdiv_eq_ediv (Rat.num_nonneg.mpr hr) (Int.natCast_nonneg r.den)

/-- For a non-negative rational, the floor of the quotient by 60 is the
Nat division of its integer floor by 60. -/
theorem floorDiv_sixty (q : ℚ) (hq : 0 ≤ q) :
    Int.floor (q / 60) = Int.ofNat ((Int.floor q).toNat / 60) := by
  have hnn : (0:ℤ) ≤ Int.floor (q / 60) := Int.floor_nonneg.mpr (by positivity)
  have ht : (Int.floor (q / (60:ℚ))).toNat = (Int.floor q).toNat / 60 := by
    rw [Int.floor_toNat, Int.floor_toNat]
    have h := Nat.floor_div_nat (α := ℚ) q 60
    simpa using h
  rw [← ht]
  exact (Int.toNat_of_nonneg hnn).symm

/-- For a non-negative rational, int() of the Python remainder modulo 60
is the Nat remainder of its integer floor modulo 60. -/
theorem mod_sixty (q : ℚ) (hq : 0 ≤ q) :
    pyTrunc (pyMod q 60) = Int.ofNat ((Int.floor q).toNat % 60) := by
  have hle : ((Int.floor (q / 60) : ℤ) : ℚ) ≤ q / 60 := Int.floor_le _
  have h60 : (60:ℚ) * (q / 60) = q := by field_simp
  have hr : (0:ℚ) ≤ pyMod q 60 := by
    have h2 : (60:ℚ) * ((Int.floor (q / 60) : ℤ) : ℚ) ≤ 60 * (q / 60) :=
      mul_le_mul_of_nonneg_left hle (by norm_num)
    simp only [pyMod, pyFloorDiv]
    linarith
  rw [pyTrunc_of_nonneg _ hr]
  have hcast : (60:ℚ) * ((Int.floor (q / 60) : ℤ) : ℚ) =
      (((60 * Int.floor (q / 60) : ℤ)) : ℚ) := by push_cast; ring
  have hfs : Int.floor (pyMod q 60) =
      Int.floor q - 60 * Int.floor (q / 60) := by
    simp only [pyMod, pyFloorDiv]
    rw [hcast, Int.floor_sub_int]
  rw [hfs, floorDiv_sixty q hq]
  have hq0 : (0:ℤ) ≤ Int.floor q := Int.floor_nonneg.mpr hq
  simp only [Int.ofNat_eq_natCast]
  omega

/-- Claim C6: for every non-negative numeric duration, integer or float,
format_duration renders the decimal of floor(D/60) with no padding, a
colon, and floor(D mod 60) zero-padded to width two. Writing n for the
integer floor of the duration, these two quantities are n/60 and n%60 (an
integer duration is its own floor); floats are modelled by their exact
rational value. In particular 330 gives 5:30, 59 gives 0:59, 3600 gives
60:00, and the float 330.5 gives 5:30. -/
theorem C6_format_duration :
    (∀ d : Nat, format_duration (PyVal.int (Int.ofNat d)) =
      Nat.repr (d / 60) ++ ":" ++
        (if d % 60 < 10 then "0" ++ Nat.repr (d % 60) else Nat.repr (d % 60))) ∧
    (∀ q : ℚ, 0 ≤ q → format_duration (PyVal.float q) =
      Nat.repr ((Int.floor q).toNat / 60) ++ ":" ++
        (if (Int.floor q).toNat % 60 < 10
         then "0" ++ Nat.repr ((Int.floor q).toNat % 60)
         else Nat.repr ((Int.floor q).toNat % 60))) ∧
    format_duration (PyVal.int 330) = "5:30" ∧
    format_duration (PyVal.int 59) = "0:59" ∧
    format_duration (PyVal.int 3600) = "60:00" ∧
    format_duration (PyVal.float ((661:ℚ) / 2)) = "5:30" := by
  have hpad : ∀ m : Nat, m < 60 →
      fmt02 (Int.ofNat m) =
        if m < 10 then "0" ++ Nat.repr m else Nat.repr m := by decide
  have hint : ∀ d : Nat, format_duration (PyVal.int (Int.ofNat d)) =
      Nat.repr (d / 60) ++ ":" ++
        (if d % 60 < 10 then "0" ++ Nat.repr (d % 60) else Nat.repr (d % 60)) := by
    intro d
    have hm : d % 60 < 60 := Nat.mod_lt _ (by norm_num)
    have h1 : Int.fdiv (Int.ofNat d) 60 = Int.ofNat (d / 60) :=
      (Int.ofNat_fdiv d 60).symm
    have h2 : Int.fmod (Int.ofNat d) 60 = Int.ofNat (d % 60) :=
      (Int.ofNat_fmod d 60).symm
    have h3 : toString (Int.ofNat (d / 60)) = Nat.repr (d / 60) := rfl
    simp only [format_duration]
    rw [h1, h2, h3, hpad _ hm]
  have hfloat : ∀ q : ℚ, 0 ≤ q → format_duration (PyVal.float q) =
      Nat.repr ((Int.floor q).toNat / 60) ++ ":" ++
        (if (Int.floor q).toNat % 60 < 10
         then "0" ++ Nat.repr ((Int.floor q).toNat % 60)
         else Nat.repr ((Int.floor q).toNat % 60)) := by
    intro q hq
    have e1 : pyTrunc (pyFloorDiv q 60) = Int.ofNat ((Int.floor q).toNat / 60) := by
      have t1 : pyTrunc (pyFloorDiv q 60) = Int.floor (q / 60) := pyTrunc_intCast _
      rw [t1, floorDiv_sixty q hq]
    have e2 : pyTrunc (pyMod q 60) = Int.ofNat ((Int.floor q).toNat % 60) :=
      mod_sixty q hq
    have e3 : toString (Int.ofNat ((Int.floor q).toNat / 60)) =
        Nat.repr ((Int.floor q).toNat / 60) := rfl
    simp only [format_duration]
    rw [e1, e2, e3, hpad _ (Nat.mod_lt _ (by norm_num))]
  refine ⟨hint, hfloat, by decide, by decide, by decide, ?_⟩
  have h := hfloat ((661:ℚ) / 2) (by norm_num)
  have hfl : Int.floor ((661:ℚ) / 2) = (330:ℤ) := by
    rw [Int.floor_eq_iff]
    norm_num
  rw [h, hfl]
  decide

/-- Claim C6, witness for the float universal at the duration 330.5. -/
theorem C6_format_duration_witness :
    format_duration (PyVal.float ((661:ℚ) / 2)) =
      Nat.repr ((Int.floor ((661:ℚ) / 2)).toNat / 60) ++ ":" ++
        (if (Int.floor ((661:ℚ) / 2)).toNat % 60 < 10
         then "0" ++ Nat.repr ((Int.floor ((661:ℚ) / 2)).toNat % 60)
         else Nat.repr ((Int.floor ((661:ℚ) / 2)).toNat % 60)) :=
  C6_format_duration.2.1 ((661:ℚ) / 2) (by norm_num)

/-- Claim C7: in info mode the Option Builder sets only quiet and
no_warnings, leaving format, output template and merge container absent;
in download mode it sets quiet to false, keeps no_warnings, sets a default
format expression, the given output template and mp4 as merge container;
the Download Handler then overrides the format key with the Format
Selector result for the requested quality. -/
theorem C7_option_builder (t : String) (tmpl : Option String)
    (timestamp : Nat) (quality : String) :
    get_ydl_opts false tmpl =
      { quiet := true, no_warnings := true, format := Option.none,
        outtmpl := Option.none, merge_output_format := Option.none } ∧
    get_ydl_opts true (Option.some t) =
      { quiet := false, no_warnings := true,
        format := Option.some "bestvideo[height<=1080]+bestaudio/best[height<=1080]",
        outtmpl := Option.some (Option.some t),
        merge_output_format := Option.some "mp4" } ∧
    (dl_opts timestamp quality).format =
      Option.some (get_quality_format_string quality) :=
  ⟨rfl, rfl, rfl⟩

/-- Claim C8, counterexample: requesting download mode with no output
template does not fail; the builder returns a full options record whose
outtmpl key holds the null value. -/
theorem C8_counterexample :
    get_ydl_opts true Option.none =
      { quiet := false, no_warnings := true,
        format := Option.some "bestvideo[height<=1080]+bestaudio/best[height<=1080]",
        outtmpl := Option.some Option.none,
        merge_output_format := Option.some "mp4" } := rfl

/-- Claim C8, amended: the Option Builder never fails; on every input it
returns an options record, and in download mode without an output template
the outtmpl key simply holds the null value. -/
theorem C8_builder_total (download : Bool) (tmpl : Option String) :
    get_ydl_opts download tmpl =
      (if download then
        { quiet := false, no_warnings := true,
          format := Option.some "bestvideo[height<=1080]+bestaudio/best[height<=1080]",
          outtmpl := Option.some tmpl,
          merge_output_format := Option.some "mp4" }
      else
        { quiet := true, no_warnings := true, format := Option.none,
          outtmpl := Option.none, merge_output_format := Option.none }) := by
  cases download <;> rfl

/-- Claim C9: the Option Builder is deterministic and idempotent; two
calls on equal inputs return equal options. -/
theorem C9_builder_deterministic (d1 d2 : Bool) (t1 t2 : Option String)
    (hd : d1 = d2) (ht : t1 = t2) :
    get_ydl_opts d1 t1 = get_ydl_opts d2 t2 := by
  rw [hd, ht]

/-- Claim C9, witness at download mode with a concrete template. -/
theorem C9_builder_deterministic_witness :
    get_ydl_opts true (Option.some "downloads/a.%(ext)s") =
      get_ydl_opts true (Option.some "downloads/a.%(ext)s") :=
  C9_builder_deterministic true true (Option.some "downloads/a.%(ext)s")
    (Option.some "downloads/a.%(ext)s") rfl rfl

/-- Claim C2: when the download result carries a requested_downloads list
with a first entry, the resolved path is that entry taken verbatim; when
the key is absent, the path is the one prepare_filename derives from the
template, with a non-mp4 extension rewritten to .mp4. -/
theorem C2_resolve_filename (prepare : DlInfo → String) (info : DlInfo) :
    (∀ (e : DlEntry) (rest : List DlEntry),
        info.requested_downloads = Option.some (e :: rest) →
        resolve_filename prepare info = Except.ok e.filepath) ∧
    (info.requested_downloads = Option.none →
        resolve_filename prepare info =
          Except.ok (if (splitext (prepare info)).2 ≠ ".mp4"
            then (splitext (prepare info)).1 ++ ".mp4"
            else prepare info)) := by
  constructor
  · intro e rest h
    simp only [resolve_filename, h]
  · intro h
    simp only [resolve_filename, h]
    split <;> rfl

/-- Claim C2, witness: a result carrying a structured entry resolves to
it verbatim, and without the key a derived mkv name is rewritten to mp4. -/
theorem C2_resolve_filename_witness :
    resolve_filename (fun _ => "downloads/v_1.mkv")
        ⟨Option.some [⟨"downloads/v_1.webm"⟩]⟩ = Except.ok "downloads/v_1.webm" ∧
    resolve_filename (fun _ => "downloads/v_1.mkv") ⟨Option.none⟩ =
      Except.ok "downloads/v_1.mp4" := by
  constructor
  · exact (C2_resolve_filename (fun _ => "downloads/v_1.mkv")
      ⟨Option.some [⟨"downloads/v_1.webm"⟩]⟩).1 ⟨"downloads/v_1.webm"⟩ [] rfl
  · have h := (C2_resolve_filename (fun _ => "downloads/v_1.mkv")
      ⟨Option.none⟩).2 rfl
    rw [h]
    rfl

/-- Claim C3: on both endpoints, an absent or empty url field yields the
400 response with body error URL is required, whatever the other fields
of the request are and whatever the collaborators do. -/
theorem C3_url_required (body args : Fields)
    (extractI : String → YdlOpts → Except String InfoDict)
    (timestamp : Nat)
    (extractD : String → YdlOpts → Except String DlInfo)
    (prepare : DlInfo → String) (pathExists : String → Bool)
    (sendErr : String → Option String)
    (hb : falsy (dictGet "url" body) = true)
    (ha : falsy (dictGet "url" args) = true) :
    get_video_info body extractI =
      ⟨400, RespBody.json [("error", "URL is required")]⟩ ∧
    download_video args timestamp extractD prepare pathExists sendErr =
      ⟨400, RespBody.json [("error", "URL is required")]⟩ := by
  constructor
  · simp [get_video_info, hb, HTTP_BAD_REQUEST, ERR_URL_REQUIRED]
  · simp [download_video, ha, HTTP_BAD_REQUEST, ERR_URL_REQUIRED]

/-- Claim C3, witness: a request whose url field is missing, with other
fields present, is rejected on both endpoints. -/
theorem C3_url_required_witness :
    get_video_info [("other", "x")] (fun _ _ => Except.error "") =
      ⟨400, RespBody.json [("error", "URL is required")]⟩ ∧
    download_video [("quality", "720p"), ("url", "")] 7
        (fun _ _ => Except.error "") (fun _ => "") (fun _ => false)
        (fun _ => Option.none) =
      ⟨400, RespBody.json [("error", "URL is required")]⟩ :=
  C3_url_required [("other", "x")] [("quality", "720p"), ("url", "")]
    (fun _ _ => Except.error "") 7 (fun _ _ => Except.error "")
    (fun _ => "") (fun _ => false) (fun _ => Option.none)
    (by decide) (by decide)

/-- Claim C4: with a non-empty url, any extractor failure on the info
path yields 400 with the fixed message, independent of the failure text. -/
theorem C4_info_error_collapsed (body : Fields)
    (extract : String → YdlOpts → Except String InfoDict) (u e : String)
    (h1 : dictGet "url" body = Option.some u) (h2 : u ≠ "")
    (h3 : extract u (get_ydl_opts false Option.none) = Except.error e) :
    get_video_info body extract =
      ⟨400, RespBody.json
        [("error", "Could not fetch video info. Please check the URL.")]⟩ := by
  have hne : ¬ (falsy (Option.some u) = true) := by simp [falsy, h2]
  simp only [get_video_info, h1, if_neg hne, Option.getD_some, h3]
  rfl

/-- Claim C4, witness: a concrete extractor failure text never reaches
the info response. -/
theorem C4_info_error_collapsed_witness :
    get_video_info [("url", "https://example.invalid")]
        (fun _ _ => Except.error "DNS failure at upstream") =
      ⟨400, RespBody.json
        [("error", "Could not fetch video info. Please check the URL.")]⟩ :=
  C4_info_error_collapsed [("url", "https://example.invalid")]
    (fun _ _ => Except.error "DNS failure at upstream")
    "https://example.invalid" "DNS failure at upstream" rfl (by decide) rfl

/-- Claim C5: with a non-empty url, an extractor failure on the download
path yields 500 with the underlying failure text itself as the error
field. -/
theorem C5_download_error_exposed (args : Fields) (timestamp : Nat)
    (extract : String → YdlOpts → Except String DlInfo)
    (prepare : DlInfo → String) (pathExists : String → Bool)
    (sendErr : String → Option String) (u e : String)
    (h1 : dictGet "url" args = Option.some u) (h2 : u ≠ "")
    (h3 : extract u
        (dl_opts timestamp ((dictGet "quality" args).getD DEFAULT_QUALITY)) =
      Except.error e) :
    download_video args timestamp extract prepare pathExists sendErr =
      ⟨500, RespBody.json [("error", e)]⟩ := by
  have hne : ¬ (falsy (Option.some u) = true) := by simp [falsy, h2]
  simp only [download_video, h1, if_neg hne, Option.getD_some, h3]
  rfl

/-- Claim C5, witness: the raw extractor failure text appears verbatim in
the 500 download response. -/
theorem C5_download_error_exposed_witness :
    download_video [("url", "https://example.invalid")] 42
        (fun _ _ => Except.error "HTTP Error 403: Forbidden")
        (fun _ => "") (fun _ => false) (fun _ => Option.none) =
      ⟨500, RespBody.json [("error", "HTTP Error 403: Forbidden")]⟩ :=
  C5_download_error_exposed [("url", "https://example.invalid")] 42
    (fun _ _ => Except.error "HTTP Error 403: Forbidden")
    (fun _ => "") (fun _ => false) (fun _ => Option.none)
    "https://example.invalid" "HTTP Error 403: Forbidden"
    rfl (by decide) rfl

/-- Claim C10: format_duration renders any non-numeric value with the
Python str() rendering instead of raising, and a metadata result with no
duration field still produces a 200 info response whose duration field is
the literal text None. -/
theorem C10_missing_duration (v : PyVal) (hv : isNumeric v = false)
    (body : Fields)
    (extract : String → YdlOpts → Except String InfoDict)
    (u : String) (info : InfoDict)
    (h1 : dictGet "url" body = Option.some u) (h2 : u ≠ "")
    (h3 : extract u (get_ydl_opts false Option.none) = Except.ok info)
    (h4 : info.duration = PyVal.vnone) :
    format_duration v = pyStr v ∧
    get_video_info body extract =
      ⟨200, RespBody.json [
        ("title", info.title.getD "Unknown Title"),
        ("thumbnail", info.thumbnail.getD ""),
        ("duration", "None"),
        ("author", info.uploader.getD "Unknown Author"),
        ("webpage_url", info.webpage_url.getD u)]⟩ := by
  constructor
  · cases v with
    | vnone => rfl
    | int n => simp [isNumeric] at hv
    | float q => simp [isNumeric] at hv
    | str s => rfl
  · have hne : ¬ (falsy (Option.some u) = true) := by simp [falsy, h2]
    simp only [get_video_info, h1, if_neg hne, Option.getD_some, h3, h4]
    rfl

/-- Claim C10, witness: a metadata result with every optional field absent
gives a 200 response carrying the defaults and the duration text None. -/
theorem C10_missing_duration_witness :
    format_duration PyVal.vnone = "None" ∧
    get_video_info [("url", "https://example.test/v")]
        (fun _ _ => Except.ok
          ⟨Option.none, Option.none, PyVal.vnone, Option.none, Option.none⟩) =
      ⟨200, RespBody.json [
        ("title", "Unknown Title"),
        ("thumbnail", ""),
        ("duration", "None"),
        ("author", "Unknown Author"),
        ("webpage_url", "https://example.test/v")]⟩ :=
  C10_missing_duration PyVal.vnone rfl [("url", "https://example.test/v")]
    (fun _ _ => Except.ok
      ⟨Option.none, Option.none, PyVal.vnone, Option.none, Option.none⟩)
    "https://example.test/v"
    ⟨Option.none, Option.none, PyVal.vnone, Option.none, Option.none⟩
    rfl (by decide) rfl rfl

end QuickDL
